import Mathlib

/-!
Verification of the event-dispatch and application-lifecycle core of the
`mathanim` engine scaffolding: the event taxonomy, the per-event dispatcher,
the `Application` routing and run loop, the singleton construction assert,
and the Win32 window resize callback.

The embedding follows the C++ source files.  The header `Events/Event.h`
(defining the base `Event` class, the `EventType` enum, the
`EVENT_CLASS_TYPE` macro and the `EventDispather` helper) and the header
`Window.h` (defining the abstract `Window` and its `SetEventCallback` slot)
are absent from the repository; those two pieces are modelled from the
specification, and each such definition says so in its doc comment.
-/

/-- The enum of concrete event kinds.  Modelled from the spec: the `EventType`
enumerant of the missing header `Events/Event.h`; its two variants used by the
repository are named by the `EVENT_CLASS_TYPE(WindowResized)` and
`EVENT_CLASS_TYPE(WindowClosed)` macro invocations in
`ApplicationEvents.h`. -/
inductive EventType where
  | WindowResized
  | WindowClosed
deriving DecidableEq, Repr

/-- The payload of a concrete event.  The taxonomy is the closed set from
`ApplicationEvents.h`: `WindowResizedEvent` carries a width and a height
(both `uint32_t`, embedded as `Nat`), `WindowClosedEvent` carries nothing. -/
inductive EventData where
  | windowResized (width height : Nat)
  | windowClosed
deriving DecidableEq, Repr

/-- An event instance: its payload plus the mutable `Handled` flag of the base
`Event` class (initially `false`). -/
structure Event where
  data : EventData
  handled : Bool := false
deriving DecidableEq, Repr

/-- The runtime type tag of an event instance, i.e. the virtual
`GetType()` accessor generated by `EVENT_CLASS_TYPE` in each concrete
class. -/
def EventData.getType : EventData → EventType
  | .windowResized _ _ => .WindowResized
  | .windowClosed => .WindowClosed

/-- `GetType()` lifted to an event instance. -/
def Event.getType (e : Event) : EventType := e.data.getType

/-- `WindowResizedEvent::GetStaticType()`, generated by
`EVENT_CLASS_TYPE(WindowResized)` in `ApplicationEvents.h`. -/
def WindowResizedEvent.staticType : EventType := EventType.WindowResized

/-- `WindowClosedEvent::GetStaticType()`, generated by
`EVENT_CLASS_TYPE(WindowClosed)` in `ApplicationEvents.h`. -/
def WindowClosedEvent.staticType : EventType := EventType.WindowClosed

/-- `WindowResizedEvent::ToString()` from `ApplicationEvents.h` lines 33-38:
streams the literal `WindowResizeEvent: `, the width, a comma-space, and the
height into a `stringstream`. -/
def WindowResizedEvent.ToString (width height : Nat) : String :=
  "WindowResizeEvent: " ++ Nat.repr width ++ ", " ++ Nat.repr height

/-- The logger verbosity levels, from `Logger.h`. -/
inductive LoggerVerbosity where
  | Off
  | Trace
  | Info
  | Warning
  | Error
  | Fatal
deriving DecidableEq, Repr

/-- One entry produced by `Logger::Log(category, verbosity, message)`
(`Logger.h`). -/
structure LogEntry where
  category : String
  verbosity : LoggerVerbosity
  message : String
deriving DecidableEq, Repr

/-- Result of expanding the `LOG_CATEGORY_ASSERT` macro (`Logger.h` lines
116-122): the log entries it emits and whether it reached `__debugbreak()`
(the process-terminating, non-recoverable signal). -/
structure AssertResult where
  logs : List LogEntry
  breakTriggered : Bool
deriving DecidableEq, Repr

/-- `LOG_CATEGORY_ASSERT(x, category, message)`: when the condition is false,
logs `Assertion Failed: ` plus the message at `Error` verbosity in the given
category and triggers a breakpoint; otherwise it does nothing. -/
def LOG_CATEGORY_ASSERT (cond : Bool) (category message : String) : AssertResult :=
  if cond then
    { logs := [], breakTriggered := false }
  else
    { logs := [{ category := category, verbosity := LoggerVerbosity.Error,
                 message := "Assertion Failed: " ++ message }],
      breakTriggered := true }

/-- The mutable lifecycle state of `Application`: the single `m_IsRunning`
flag (`Application.h`), initialized to `true`. -/
structure ApplicationState where
  isRunning : Bool := true
deriving DecidableEq, Repr

/-- The `EventDispather` helper (its name keeps the source spelling used in
`Application::OnEvent`).  Modelled from the spec: its defining header
`Events/Event.h` is absent from the repository.  Per the spec it is a
short-lived helper referencing exactly one event. -/
structure EventDispather where
  event : Event
deriving DecidableEq, Repr

/-- The observable outcome of one `EventDispather::Dispatch` call: the
(possibly updated) event, the threaded handler state, and how many times the
handler was invoked during the call. -/
structure DispatchResult (σ : Type) where
  event : Event
  state : σ
  handlerCalls : Nat

/-- `EventDispather::Dispatch<ConcreteType>(handler)`.  Modelled from the
spec, the defining header `Events/Event.h` being absent: it compares the
wrapped event runtime type tag to the static type tag of `ConcreteType`
(passed here as `targetType`); on mismatch it is a no-op; on match it invokes
the handler once with the event narrowed to `ConcreteType` and writes the
handler boolean result into the event `Handled` flag.  Handler state (the
`Application` fields the bound member function mutates) is threaded
explicitly through `σ`. -/
def EventDispather.Dispatch {σ : Type} (d : EventDispather) (targetType : EventType)
    (handler : σ → Event → σ × Bool) (s : σ) : DispatchResult σ :=
  if d.event.getType = targetType then
    let r := handler s d.event
    { event := { d.event with handled := r.2 }, state := r.1, handlerCalls := 1 }
  else
    { event := d.event, state := s, handlerCalls := 0 }

/-- `Application::OnWindowClose` (`Application.cpp` lines 67-71): sets
`m_IsRunning` to `false` and returns `true` (event consumed). -/
def Application.onWindowClose (app : ApplicationState) (_e : Event) :
    ApplicationState × Bool :=
  ({ app with isRunning := false }, true)

/-- The observable outcome of one `Application::OnEvent` call: the state after
the call, the event after the call, the number of times the close handler ran,
and every log entry the call emitted. -/
structure OnEventResult where
  state : ApplicationState
  event : Event
  handlerCalls : Nat
  logs : List LogEntry
deriving DecidableEq, Repr

/-- `Application::OnEvent` (`Application.cpp` lines 61-65): constructs an
`EventDispather` over the incoming event and attempts a single
`Dispatch<WindowClosedEvent>` bound to `Application::OnWindowClose`.  The
body contains no `Logger::Log` call, so the emitted log list is empty. -/
def Application.onEvent (app : ApplicationState) (e : Event) : OnEventResult :=
  let dispatcher : EventDispather := { event := e }
  let r := dispatcher.Dispatch WindowClosedEvent.staticType Application.onWindowClose app
  { state := r.state, event := r.event, handlerCalls := r.handlerCalls, logs := [] }

/-- `Application::Application` (`Application.cpp` lines 5-17): the outcome of
running the constructor against the current value of the `s_Instance`
global.  `fatalAssert` records that `LOG_CATEGORY_ASSERT` logged its entries
and reached `__debugbreak()`, terminating the process before construction
completes; `ok` is a normally constructed application (running flag at its
`true` default, `s_Instance` now set). -/
inductive ConstructResult where
  | fatalAssert (logs : List LogEntry)
  | ok (app : ApplicationState)
deriving DecidableEq, Repr

/-- The constructor body up to its observable lifecycle effect: it asserts
that `s_Instance` is null (`Application already exists!` in category
`Engine`); on assertion failure the process terminates, otherwise the
instance is registered and construction completes with `m_IsRunning = true`.
Window creation and the OpenGL buffer setup are external collaborators and
carry no lifecycle state. -/
def Application.construct (s_Instance : Option ApplicationState) : ConstructResult :=
  let a := LOG_CATEGORY_ASSERT s_Instance.isNone "Engine" "Application already exists!"
  if a.breakTriggered then
    ConstructResult.fatalAssert a.logs
  else
    ConstructResult.ok { isRunning := true }

/-- Processing of the events a single `Window::OnUpdate` pump delivers: GLFW
invokes the registered callback (`Application::OnEvent`) synchronously, once
per pending event, in order. -/
def Application.processEvents (app : ApplicationState) : List Event → ApplicationState
  | [] => app
  | e :: rest => Application.processEvents (Application.onEvent app e).state rest

/-- `Application::Run` (`Application.cpp` lines 46-59) over a finite script of
pumps: each script element is the batch of events one `m_Window->OnUpdate()`
call delivers.  The loop checks `m_IsRunning` at the top of each iteration;
an iteration clears and draws (external GL calls, no lifecycle state) and then
performs exactly one pump, processing the whole batch.  Returns the final
state and the number of pumps (i.e. `Window::OnUpdate` calls) performed. -/
def Application.run (app : ApplicationState) : List (List Event) → ApplicationState × Nat
  | [] => (app, 0)
  | batch :: rest =>
    if app.isRunning then
      let next := Application.run (Application.processEvents app batch) rest
      (next.1, next.2 + 1)
    else
      (app, 0)

/-- The per-window data block of `Win32Windows` (`Win32Window.h` lines
34-40). -/
structure WindowData where
  title : String
  width : Nat
  height : Nat
  isVSyncEnabled : Bool
deriving DecidableEq, Repr

/-- `Win32Windows::GetWidth` (`Win32Window.h`): reads `m_Data.Width`. -/
def Win32Windows.GetWidth (d : WindowData) : Nat := d.width

/-- `Win32Windows::GetHeight` (`Win32Window.h`): reads `m_Data.Height`. -/
def Win32Windows.GetHeight (d : WindowData) : Nat := d.height

/-- The observable trace of one invocation of the window-size callback: the
window data in force when the registered event handler is invoked, the event
passed to it, the event after the handler returned, and the window data after
the callback returns. -/
structure ResizeCallbackTrace where
  dataAtDispatch : WindowData
  dispatchedEvent : Event
  eventAfterHandler : Event
  finalData : WindowData

/-- The `glfwSetWindowSizeCallback` lambda of `Win32Windows::Initialize`
(`Win32Window.cpp` lines 66-77): it first writes the new width and height
into the stored window data, then constructs a `WindowResizedEvent` and
invokes the registered handler on it.  The handler slot itself
(`data.Handler`, the `SetEventCallback` target) is modelled from the spec,
its declaring header `Window.h` being absent from the repository; the handler
may mark the event handled but has no access to the window data. -/
def Win32Windows.sizeCallback (d : WindowData) (w h : Nat)
    (handler : Event → Event) : ResizeCallbackTrace :=
  let d1 := { d with width := w, height := h }
  let ev : Event := { data := EventData.windowResized w h, handled := false }
  { dataAtDispatch := d1, dispatchedEvent := ev,
    eventAfterHandler := handler ev, finalData := d1 }

/-- Helper: the state after `Application::OnEvent` is reset to the stopped
state exactly when the event is a `WindowClosedEvent`; otherwise it is the
incoming state. -/
theorem Application.onEvent_state_eq (app : ApplicationState) (e : Event) :
    (Application.onEvent app e).state =
      if e.getType = EventType.WindowClosed then { isRunning := false } else app := by
  by_cases h : e.getType = EventType.WindowClosed <;>
    simp [Application.onEvent, EventDispather.Dispatch, WindowClosedEvent.staticType,
      Application.onWindowClose, h]

/-- Helper: once the running flag is false, processing any batch of events
leaves it false (no handler ever sets it back to true). -/
theorem Application.processEvents_not_running (l : List Event) (app : ApplicationState)
    (h : app.isRunning = false) :
    (Application.processEvents app l).isRunning = false := by
  induction l generalizing app with
  | nil => exact h
  | cons e rest ih =>
    refine ih _ ?_
    rw [Application.onEvent_state_eq]
    by_cases hc : e.getType = EventType.WindowClosed <;> simp [hc, h]

/-- Helper: a batch containing a fresh `WindowClosedEvent` leaves the running
flag false after processing. -/
theorem Application.processEvents_close_mem (l : List Event) (app : ApplicationState)
    (h : ({ data := EventData.windowClosed, handled := false } : Event) ∈ l) :
    (Application.processEvents app l).isRunning = false := by
  induction l generalizing app with
  | nil => cases h
  | cons e rest ih =>
    rcases List.mem_cons.mp h with heq | hmem
    · show (Application.processEvents (Application.onEvent app e).state rest).isRunning = false
      refine Application.processEvents_not_running rest _ ?_
      rw [Application.onEvent_state_eq]
      subst heq
      simp [Event.getType, EventData.getType]
    · exact ih _ hmem

/-- Helper: the run loop performs no pump when the running flag is already
false. -/
theorem Application.run_not_running (app : ApplicationState) (script : List (List Event))
    (h : app.isRunning = false) :
    Application.run app script = (app, 0) := by
  cases script <;> simp [Application.run, h]

/-- C1: every `WindowClosedEvent` passed to `Application::OnEvent` invokes the
internal close handler exactly once, sets the event `Handled` flag to `true`,
and makes the application `IsRunning` flag false. -/
theorem Application.onEvent_windowClosed (app : ApplicationState) (hd : Bool) :
    (Application.onEvent app { data := EventData.windowClosed, handled := hd }).handlerCalls = 1 ∧
    (Application.onEvent app { data := EventData.windowClosed, handled := hd }).event.handled = true ∧
    (Application.onEvent app { data := EventData.windowClosed, handled := hd }).state.isRunning = false := by
  simp [Application.onEvent, EventDispather.Dispatch, WindowClosedEvent.staticType,
    Event.getType, EventData.getType, Application.onWindowClose]

/-- C2: every `WindowResizedEvent` passed to `Application::OnEvent` never
invokes the close handler and leaves all observable state unchanged: the
event keeps `Handled = false` and the application state is exactly the prior
state. -/
theorem Application.onEvent_windowResized_noop (app : ApplicationState) (w h : Nat) :
    (Application.onEvent app { data := EventData.windowResized w h, handled := false }).handlerCalls = 0 ∧
    (Application.onEvent app { data := EventData.windowResized w h, handled := false }).event =
      { data := EventData.windowResized w h, handled := false } ∧
    (Application.onEvent app { data := EventData.windowResized w h, handled := false }).state = app := by
  simp [Application.onEvent, EventDispather.Dispatch, WindowClosedEvent.staticType,
    Event.getType, EventData.getType]

/-- C3: once `IsRunning` is false the run loop performs no further pumps and
returns the state to the caller; while running, an iteration first processes
its entire batch (no mid-iteration abort) and only then reaches the next
boundary check; hence a batch containing a `WindowClosedEvent` yields exactly
one further pump, the one in flight. -/
theorem Application.run_boundary_exit (app : ApplicationState)
    (script : List (List Event)) (batch : List Event) (rest : List (List Event)) :
    (app.isRunning = false → Application.run app script = (app, 0)) ∧
    (app.isRunning = true →
      Application.run app (batch :: rest) =
        ((Application.run (Application.processEvents app batch) rest).1,
          (Application.run (Application.processEvents app batch) rest).2 + 1)) ∧
    (app.isRunning = true →
      ({ data := EventData.windowClosed, handled := false } : Event) ∈ batch →
      (Application.run app (batch :: rest)).2 = 1) := by
  refine ⟨fun h => Application.run_not_running app script h, fun h => ?_, fun h hmem => ?_⟩
  · simp [Application.run, h]
  · rw [Application.run, if_pos h,
      Application.run_not_running _ rest (Application.processEvents_close_mem batch app hmem)]

/-- Witness for C3 at concrete inputs: a stopped application pumps zero times,
a running one unfolds one iteration, and a close event inside the first batch
stops the loop after exactly that one pump even with more batches pending. -/
theorem Application.run_boundary_exit_witness :
    (Application.run { isRunning := false }
        [[{ data := EventData.windowResized 800 600, handled := false }]] =
      ({ isRunning := false }, 0)) ∧
    (Application.run { isRunning := true }
        [[{ data := EventData.windowClosed, handled := false }]] =
      ((Application.run
          (Application.processEvents { isRunning := true }
            [{ data := EventData.windowClosed, handled := false }]) []).1,
        (Application.run
          (Application.processEvents { isRunning := true }
            [{ data := EventData.windowClosed, handled := false }]) []).2 + 1)) ∧
    (Application.run { isRunning := true }
        [[{ data := EventData.windowClosed, handled := false }],
          [{ data := EventData.windowResized 800 600, handled := false }]]).2 = 1 :=
  ⟨(Application.run_boundary_exit { isRunning := false }
      [[{ data := EventData.windowResized 800 600, handled := false }]] [] []).1 rfl,
    (Application.run_boundary_exit { isRunning := true } []
      [{ data := EventData.windowClosed, handled := false }] []).2.1 rfl,
    (Application.run_boundary_exit { isRunning := true } []
      [{ data := EventData.windowClosed, handled := false }]
      [[{ data := EventData.windowResized 800 600, handled := false }]]).2.2 rfl (by decide)⟩

/-- C4: constructing a second `Application` while one exists runs the
constructor against a non-null `s_Instance`, which takes the fatal assertion
path: the `Engine` category logs the assertion failure at `Error` verbosity
and `__debugbreak()` terminates the process, so construction never completes
normally (the outcome is never `ok`). -/
theorem Application.construct_second_fatal (existing : ApplicationState) :
    Application.construct (some existing) =
      ConstructResult.fatalAssert
        [{ category := "Engine", verbosity := LoggerVerbosity.Error,
           message := "Assertion Failed: Application already exists!" }] ∧
    ∀ app2, Application.construct (some existing) ≠ ConstructResult.ok app2 := by
  refine ⟨rfl, fun app2 hcontra => ?_⟩
  rw [show Application.construct (some existing) =
      ConstructResult.fatalAssert
        [{ category := "Engine", verbosity := LoggerVerbosity.Error,
           message := "Assertion Failed: Application already exists!" }] from rfl] at hcontra
  exact ConstructResult.noConfusion hcontra

/-- C5: one `EventDispather::Dispatch` call is a no-op when the wrapped event
runtime type tag differs from the requested static tag, and on a match it
invokes the handler (exactly one handler execution for the call) and writes
the handler boolean result into the event `Handled` flag. -/
theorem EventDispather.Dispatch_matches_spec {σ : Type} (t : EventType)
    (handler : σ → Event → σ × Bool) (e : Event) (s : σ) :
    (e.getType ≠ t →
      EventDispather.Dispatch { event := e } t handler s =
        { event := e, state := s, handlerCalls := 0 }) ∧
    (e.getType = t →
      EventDispather.Dispatch { event := e } t handler s =
        { event := { e with handled := (handler s e).2 },
          state := (handler s e).1, handlerCalls := 1 }) := by
  constructor <;> intro h <;> simp [EventDispather.Dispatch, h]

/-- Witness for C5 at concrete inputs: dispatching for `WindowClosedEvent`
over a resize event is a no-op, and over a close event runs the close handler
once, marking the event handled and stopping the application. -/
theorem EventDispather.Dispatch_matches_spec_witness :
    (EventDispather.Dispatch
        { event := { data := EventData.windowResized 800 600, handled := false } }
        EventType.WindowClosed Application.onWindowClose { isRunning := true } =
      { event := { data := EventData.windowResized 800 600, handled := false },
        state := { isRunning := true }, handlerCalls := 0 }) ∧
    (EventDispather.Dispatch
        { event := { data := EventData.windowClosed, handled := false } }
        EventType.WindowClosed Application.onWindowClose { isRunning := true } =
      { event := { data := EventData.windowClosed, handled := true },
        state := { isRunning := false }, handlerCalls := 1 }) :=
  ⟨(EventDispather.Dispatch_matches_spec EventType.WindowClosed Application.onWindowClose
      { data := EventData.windowResized 800 600, handled := false }
      { isRunning := true }).1 (by decide),
    (EventDispather.Dispatch_matches_spec EventType.WindowClosed Application.onWindowClose
      { data := EventData.windowClosed, handled := false }
      { isRunning := true }).2 rfl⟩

/-- C6: feeding the sequence resize(800,600), resize(1024,768), close into
`Application::OnEvent` gives two no-op passes through the close-dispatch
attempt with `IsRunning` still true, then the third event flips `IsRunning`
to false; a run-loop iteration delivering that batch is therefore the last
pump, the loop terminating at its next boundary check even with further
batches pending. -/
theorem Application.scenario_resize_resize_close :
    (Application.onEvent { isRunning := true }
      { data := EventData.windowResized 800 600, handled := false }).handlerCalls = 0 ∧
    (Application.onEvent { isRunning := true }
      { data := EventData.windowResized 800 600, handled := false }).state.isRunning = true ∧
    (Application.onEvent
      (Application.onEvent { isRunning := true }
        { data := EventData.windowResized 800 600, handled := false }).state
      { data := EventData.windowResized 1024 768, handled := false }).handlerCalls = 0 ∧
    (Application.onEvent
      (Application.onEvent { isRunning := true }
        { data := EventData.windowResized 800 600, handled := false }).state
      { data := EventData.windowResized 1024 768, handled := false }).state.isRunning = true ∧
    (Application.onEvent
      (Application.onEvent
        (Application.onEvent { isRunning := true }
          { data := EventData.windowResized 800 600, handled := false }).state
        { data := EventData.windowResized 1024 768, handled := false }).state
      { data := EventData.windowClosed, handled := false }).state.isRunning = false ∧
    (Application.run { isRunning := true }
      [[{ data := EventData.windowResized 800 600, handled := false },
        { data := EventData.windowResized 1024 768, handled := false },
        { data := EventData.windowClosed, handled := false }],
       [{ data := EventData.windowResized 640 480, handled := false }]]).2 = 1 := by
  decide

/-- C7: for each concrete event type of the taxonomy, the static type
accessor agrees with the instance type accessor on every instance. -/
theorem Event.staticType_matches_getType (w h : Nat) (b1 b2 : Bool) :
    WindowResizedEvent.staticType =
      (Event.mk (EventData.windowResized w h) b1).getType ∧
    WindowClosedEvent.staticType = (Event.mk EventData.windowClosed b2).getType :=
  ⟨rfl, rfl⟩

/-- C8 counterexample: `Application::OnEvent` contains no logging call, so an
unclaimed `WindowResizedEvent` passing through it produces no log entry at
all — refuting the claim that a log entry is produced before the event is
discarded. -/
theorem Application.onEvent_unclaimed_emits_no_log :
    (Application.onEvent { isRunning := true }
      { data := EventData.windowResized 800 600, handled := false }).logs = [] := rfl

/-- C8 amended: every event with no matching handler in the routing table
(every `WindowResizedEvent` reaching `OnEvent`) is dropped silently: no log
entry is produced, the application state is unchanged, no handler runs, and
no fault is raised. -/
theorem Application.onEvent_unclaimed_dropped_silently (app : ApplicationState)
    (w h : Nat) (hd : Bool) :
    (Application.onEvent app { data := EventData.windowResized w h, handled := hd }).logs = [] ∧
    (Application.onEvent app { data := EventData.windowResized w h, handled := hd }).state = app ∧
    (Application.onEvent app { data := EventData.windowResized w h, handled := hd }).handlerCalls = 0 := by
  simp [Application.onEvent, EventDispather.Dispatch, WindowClosedEvent.staticType,
    Event.getType, EventData.getType]

/-- C9: the `ToString()` rendering of `WindowResizedEvent(800,600)` contains
both the substring 800 and the substring 600. -/
theorem WindowResizedEvent.toString_contains_dimensions :
    "800".data <:+: (WindowResizedEvent.ToString 800 600).data ∧
    "600".data <:+: (WindowResizedEvent.ToString 800 600).data := by
  decide

/-- C10: the window-size callback writes the new width and height into the
stored window data before constructing and dispatching the
`WindowResizedEvent`, so the data seen by the invoked handler already reports
the new size, and after the callback returns `GetWidth`/`GetHeight` report
the new size regardless of what the handler did to the event. -/
theorem Win32Windows.sizeCallback_updates_data_first (d : WindowData) (w h : Nat)
    (handler : Event → Event) :
    Win32Windows.GetWidth (Win32Windows.sizeCallback d w h handler).dataAtDispatch = w ∧
    Win32Windows.GetHeight (Win32Windows.sizeCallback d w h handler).dataAtDispatch = h ∧
    (Win32Windows.sizeCallback d w h handler).dispatchedEvent =
      { data := EventData.windowResized w h, handled := false } ∧
    (Win32Windows.sizeCallback d w h handler).finalData =
      (Win32Windows.sizeCallback d w h handler).dataAtDispatch ∧
    Win32Windows.GetWidth (Win32Windows.sizeCallback d w h handler).finalData = w ∧
    Win32Windows.GetHeight (Win32Windows.sizeCallback d w h handler).finalData = h :=
  ⟨rfl, rfl, rfl, rfl, rfl, rfl⟩
